import Mathlib

/-!
Shallow embedding of `packages/builders/src/test-cafe/test-cafe.builder.ts`
(the `TestCafeBuilder` class): target-spec parsing, base-URL derivation,
the dev-server pipeline, the TestCafe downstream invocation, and the
process-lifecycle guard (`killProcess`).

External collaborators (`@angular-devkit/architect`, Node's legacy `url`
module, `tree-kill`, the `testcafe` library) are modelled as explicit
parameters/structures; `url.parse`/`url.format` are modelled after Node's
documented legacy algorithm, restricted to the authority-form inputs the
builder feeds them (no userinfo, query, or hash).
-/

namespace TestCafe

/-! ## Target-spec strings: `devServerTarget.split(':')` -/

/-- `s.split(':')` of JavaScript, on the character list of the string.
For a single-character separator, JS `split` and `List.splitOn` agree
(`"".split(':') = [""]`, `"a:".split(':') = ["a",""]`, …). -/
def splitColon (s : String) : List String :=
  (s.data.splitOn ':').map List.asString

/-- The destructuring
`const [project, targetName, configuration] = devServerTarget.split(':')`:
a missing element is `undefined`, modelled as `none`. -/
structure TargetStringParts where
  project : Option String
  target : Option String
  configuration : Option String
  deriving Repr, DecidableEq

/-- Parse a target spec string the way `startDevServer` destructures it. -/
def parseTargetString (s : String) : TargetStringParts :=
  { project := (splitColon s)[0]?
    target := (splitColon s)[1]?
    configuration := (splitColon s)[2]? }

/-! ## The scheme-prefix regular expression `/^\w+:\/\//` -/

/-- `\w` of JavaScript regexes: `[A-Za-z0-9_]`. -/
def isWordChar (c : Char) : Bool :=
  c.isAlpha || c.isDigit || c = '_'

/-- `/^\w+:\/\//.test s`: a non-empty run of word characters followed by
`://`.  (The greedy `\w+` stops exactly at the first non-word character,
and `:` is not a word character, so no backtracking case is lost.) -/
def schemeRegexTest (s : String) : Bool :=
  let w := s.data.takeWhile isWordChar
  decide (w ≠ []) && decide ((s.data.drop w.length).take 3 = [':', '/', '/'])

/-! ## Node legacy `url` module (model) -/

/-- The fields of a legacy `Url` object that the builder's inputs can
populate (no `auth`, `search`, `query` or `hash`). -/
structure UrlObject where
  protocol : Option String := none
  slashes : Bool := false
  host : Option String := none
  hostname : Option String := none
  port : Option String := none
  pathname : Option String := none
  deriving Repr, DecidableEq

/-- `protocol.charCodeAt(protocol.length - 1) === ':'` of the legacy
formatter: does the string end in a colon? -/
def lastIsColon (s : String) : Bool :=
  s.data.getLast? == some ':'

/-- Does the string contain a colon (`hostname.indexOf(':') === -1` test
of the legacy formatter)? -/
def containsColon (s : String) : Bool :=
  s.data.contains ':'

/-- `pathname.charCodeAt(0) === '/'` of the legacy formatter. -/
def startsWithSlash (s : String) : Bool :=
  s.data.head? == some '/'

/-- `String.prototype.toLowerCase` on the ASCII range, as the legacy
parser applies it to the scheme and hostname. -/
def lowerChar (c : Char) : Char :=
  if 'A' ≤ c ∧ c ≤ 'Z' then Char.ofNat (c.toNat + 32) else c

/-- Lowercase a string character by character. -/
def lowerStr (s : String) : String :=
  (s.data.map lowerChar).asString

/-- The protocols the legacy module treats as slashed
(`http`, `https`, `ftp`, `gopher`, `file`, `ws`, `wss`). -/
def slashedProtocol (p : String) : Bool :=
  p = "http:" || p = "https:" || p = "ftp:" || p = "gopher:" ||
  p = "file:" || p = "ws:" || p = "wss:"

/-- Model of Node's legacy `url.format` on a `UrlObject`, per its
documented algorithm restricted to the fields above: the protocol gets a
trailing `:` if missing; `host` wins over `hostname`+`port` (a `hostname`
containing `:` is bracketed); `//` is inserted when `slashes` is set or
the protocol is a slashed one with a host present; an absent `pathname`
contributes the empty string. -/
def urlFormat (u : UrlObject) : String :=
  let protocol :=
    match u.protocol with
    | none => ""
    | some p => if lastIsColon p then p else p ++ ":"
  let host :=
    match u.host with
    | some h => some h
    | none =>
      match u.hostname with
      | none => none
      | some hn =>
        let hn := if containsColon hn then "[" ++ hn ++ "]" else hn
        some (hn ++ (match u.port with
          | some pt => if pt ≠ "" then ":" ++ pt else ""
          | none => ""))
  let pathname := u.pathname.getD ""
  match host with
  | some h =>
    if u.slashes || slashedProtocol protocol then
      protocol ++ "//" ++ h ++
        (if pathname ≠ "" && !startsWithSlash pathname then "/" ++ pathname
         else pathname)
    else
      protocol ++ h ++ pathname
  | none => protocol ++ pathname

/-- Model of Node's legacy `url.parse`, restricted to the shape the
builder feeds it — `scheme://authority[/path…]` with no userinfo, query
or hash: the scheme and authority are lowercased, the authority is kept
whole in `host`/`hostname` (no port split, which `url.format` never needs
when `host` is set), and a missing path becomes pathname `/` exactly when
the protocol is slashed and the host is non-empty.  A string without a
`scheme://` prefix (never produced by the builder) is treated as a bare
path. -/
def urlParse (s : String) : UrlObject :=
  let cs := s.data
  let w := cs.takeWhile isWordChar
  let rest := cs.drop w.length
  if w ≠ [] ∧ rest.take 3 = [':', '/', '/'] then
    let afterSlashes := rest.drop 3
    let auth := afterSlashes.takeWhile fun c => !(c = '/' || c = '?' || c = '#')
    let pathRest := afterSlashes.drop auth.length
    let proto := lowerStr w.asString ++ ":"
    let host := lowerStr auth.asString
    let pathname :=
      if pathRest = [] then
        if slashedProtocol proto ∧ host ≠ "" then some "/" else none
      else some pathRest.asString
    { protocol := some proto, slashes := true, host := some host,
      hostname := some host, port := none, pathname := pathname }
  else
    { pathname := if s = "" then none else some s }

/-! ## Options records -/

/-- The dev-server options consumed by the URL deriver
(`builderConfig.options` of the dev-server target). -/
structure DevServerOptions where
  host : String
  port : Int
  ssl : Bool
  publicHost : Option String
  watch : Bool
  deriving Repr, DecidableEq

/-- JS truthiness of an optional string: present and non-empty. -/
def truthyStr : Option String → Bool
  | none => false
  | some s => s ≠ ""

/-- The string the `publicHost` branch feeds to `url.parse`: the
`publicHost` itself when it already has a `scheme://` prefix, otherwise
prefixed with `https://`/`http://` according to `ssl`. -/
def publicHostWithScheme (o : DevServerOptions) : String :=
  let ph := o.publicHost.getD ""
  if schemeRegexTest ph then ph
  else (if o.ssl then "https" else "http") ++ "://" ++ ph

/-- The `tap` body of `startDevServer`, acting on the stored
`computedTestCafeBaseUrl` (previous value `old`):
if `devServerTarget && options.publicHost`, round-trip the
scheme-qualified public host through `url.parse`/`url.format`; else if
`devServerTarget`, synthesize via
`url.format({protocol, hostname, port: port.toString()})`; else leave the
field untouched. -/
def computeBaseUrl (devServerTarget : String) (o : DevServerOptions)
    (old : Option String) : Option String :=
  if devServerTarget ≠ "" ∧ truthyStr o.publicHost then
    some (urlFormat (urlParse (publicHostWithScheme o)))
  else if devServerTarget ≠ "" then
    some (urlFormat
      { protocol := some (if o.ssl then "https" else "http")
        hostname := some o.host
        port := some (toString o.port) })
  else old

/-! ## Builder state and external collaborators -/

/-- A tracked child process: only its pid matters to the builder. -/
structure ChildProc where
  pid : Nat
  deriving Repr, DecidableEq

/-- The mutable instance fields of `TestCafeBuilder`:
`computedTestCafeBaseUrl` (initially unset) and `tscProcess`
(initialized to `null`). -/
structure BuilderState where
  computedTestCafeBaseUrl : Option String
  tscProcess : Option ChildProc
  deriving Repr, DecidableEq

/-- The field initializers of the class. -/
def initialState : BuilderState :=
  { computedTestCafeBaseUrl := none, tscProcess := none }

/-- A terminal build event `{ success }`. -/
structure BuildEvent where
  success : Bool
  deriving Repr, DecidableEq

/-- The `{ success: failedCount === 0 }` record built from the runner's
tally. -/
def buildEventOf (failedCount : Int) : BuildEvent :=
  { success := failedCount == 0 }

/-- The target spec object handed to
`architect.getBuilderConfiguration`, overrides included. -/
structure ArchTargetSpec where
  project : Option String
  target : Option String
  configuration : Option String
  watchOverride : Bool
  deriving Repr, DecidableEq

/-- A resolved dev-server builder configuration (only its options
matter to this builder). -/
structure DevServerConfig where
  options : DevServerOptions
  deriving Repr, DecidableEq

/-- Errors are carried by their message. -/
abbrev Err := String

/-- The external `@angular-devkit/architect` registry as the builder
uses it: resolve a configuration, fetch the builder description,
validate the options against it, and run the target to a stream of
build events (modelled as the list of events the observable emits; a
rejected step is an `Except.error`). -/
structure Architect where
  getBuilderConfiguration : ArchTargetSpec → DevServerConfig
  getBuilderDescription : DevServerConfig → Except Err String
  validateBuilderOptions : DevServerConfig → String → Except Err DevServerConfig
  runTarget : DevServerConfig → List BuildEvent

/-! ## `startDevServer` -/

/-- The target spec object `startDevServer` builds from the split target
string, `overrides = { watch: isWatching }` included. -/
def archSpecOf (devServerTarget : String) (isWatching : Bool) :
    ArchTargetSpec :=
  let parts := parseTargetString devServerTarget
  { project := parts.project, target := parts.target,
    configuration := parts.configuration, watchOverride := isWatching }

/-- The dev-server configuration `architect.getBuilderConfiguration`
resolves for a target string. -/
def resolvedConfig (arch : Architect) (devServerTarget : String)
    (isWatching : Bool) : DevServerConfig :=
  arch.getBuilderConfiguration (archSpecOf devServerTarget isWatching)

/-- `startDevServer(devServerTarget, isWatching)`: split the target
string, resolve the configuration with `overrides = { watch: isWatching }`,
fetch the description, validate, record the computed base URL in the
instance state (the `tap`), then run the target.  An error in any step
propagates and aborts the pipeline. -/
def startDevServer (arch : Architect) (st : BuilderState)
    (devServerTarget : String) (isWatching : Bool) :
    Except Err (BuilderState × List BuildEvent) :=
  let builderConfig := resolvedConfig arch devServerTarget isWatching
  match arch.getBuilderDescription builderConfig with
  | .error e => .error e
  | .ok devServerDescription =>
    match arch.validateBuilderOptions builderConfig devServerDescription with
    | .error e => .error e
    | .ok builderConfig =>
      let st :=
        { st with computedTestCafeBaseUrl := (computeBaseUrl devServerTarget
            builderConfig.options st.computedTestCafeBaseUrl) }
      .ok (st, arch.runTarget builderConfig)

/-! ## `initTestCafe` and the TestCafe session -/

/-- The external `testcafe` library as the builder drives it:
`createTestCafe(host, port1, port2)` may reject; the runner configured
with `.src(path).browsers(list)` resolves to a failed-test count or
rejects.  `close()` always resolves (its call count is what the builder's
claims are about). -/
structure TestCafeLib where
  create : String → Nat → Nat → Except Err Unit
  runnerRun : String → List String → Except Err Int

/-- The arguments the external runner session actually receives:
the fixed connection endpoint of `createTestCafe` and the
`.src`/`.browsers` configuration of the runner. -/
structure RunnerInvocation where
  endpointHost : String
  port1 : Nat
  port2 : Nat
  src : String
  browsers : List String
  deriving Repr, DecidableEq

/-- Outcome of one `initTestCafe` promise chain. -/
structure InitResult where
  outcome : Except Err BuildEvent
  closeCount : Nat
  invocation : Option RunnerInvocation
  deriving Repr

/-- `initTestCafe(srcPath, browsers)`:
`createTestCafe('localhost', 1337, 1338)` then
`runner.src(srcPath).browsers(browsers).run()` then
`testCafe.close(); return { success: failedCount === 0 }`.
A rejection of `createTestCafe` or of `run()` skips the second `.then`,
so `close()` is not called on those paths. -/
def initTestCafe (lib : TestCafeLib) (srcPath : String)
    (browsers : List String) : InitResult :=
  match lib.create "localhost" 1337 1338 with
  | .error e => { outcome := .error e, closeCount := 0, invocation := none }
  | .ok _ =>
    let inv : RunnerInvocation :=
      { endpointHost := "localhost", port1 := 1337, port2 := 1338,
        src := srcPath, browsers := browsers }
    match lib.runnerRun srcPath browsers with
    | .error e => { outcome := .error e, closeCount := 0, invocation := some inv }
    | .ok failedCount =>
      { outcome := .ok (buildEventOf failedCount), closeCount := 1,
        invocation := some inv }

/-! ## `run` -/

/-- The options of the TestCafe builder itself. -/
structure TestCafeBuilderOptions where
  browsers : List String
  devServerTarget : Option String
  deriving Repr, DecidableEq

/-- Result of one `run` invocation: final instance state, the events the
returned observable emits (or the error it terminates with, rethrown by
`catchError`), the `close()` call count and the runner invocation of the
downstream step. -/
structure RunResult where
  state : BuilderState
  events : Except Err (List BuildEvent)
  closeCount : Nat
  invocation : Option RunnerInvocation
  deriving Repr

/-- Finish `run` after the dev-server stream: `concatMap` into
`initTestCafe` on the first dev-server event, `take(1)`.  An empty
dev-server stream completes without ever subscribing `initTestCafe`. -/
def runDownstream (lib : TestCafeLib) (st : BuilderState) (root : String)
    (browsers : List String) (devEvents : List BuildEvent) : RunResult :=
  if devEvents.isEmpty then
    { state := st, events := .ok [], closeCount := 0, invocation := none }
  else
    let r := initTestCafe lib root browsers
    match r.outcome with
    | .error e =>
      { state := st, events := .error e, closeCount := r.closeCount,
        invocation := r.invocation }
    | .ok ev =>
      { state := st, events := .ok [ev], closeCount := r.closeCount,
        invocation := r.invocation }

/-- `run(builderConfig)`: build the dev server when `devServerTarget` is
truthy (passing `isWatching = false`), else `of(null)` (a single dummy
emission); pipe through `concatMap(() => initTestCafe(root, browsers))`
and `take(1)`; `catchError` rethrows any error. -/
def run (arch : Architect) (lib : TestCafeLib) (st : BuilderState)
    (root : String) (options : TestCafeBuilderOptions) : RunResult :=
  match options.devServerTarget with
  | some t =>
    if t ≠ "" then
      match startDevServer arch st t false with
      | .error e =>
        { state := st, events := .error e, closeCount := 0, invocation := none }
      | .ok (st, devEvents) => runDownstream lib st root options.browsers devEvents
    else
      runDownstream lib st root options.browsers [{ success := true }]
  | none => runDownstream lib st root options.browsers [{ success := true }]

/-! ## `killProcess` and `tree-kill` -/

/-- The error shapes the `tree-kill` callback may report:
a list-like error (elements modelled as optional strings; an absent or
empty element is falsy) or a plain error object with an optional
`message`. -/
inductive KillError
  | arr (e0 e1 e2 : Option String)
  | obj (message : Option String)
  deriving Repr, DecidableEq

/-- The messages the `killProcess` callback logs for a reported error:
`Array.isArray(error) && error[0] && error[2]` logs `error[2]`;
otherwise a truthy `error.message` is logged; any other shape logs
nothing.  (A list-like error has no `message` field, so a non-matching
array falls through silently.) -/
def loggedMessages : Option KillError → List String
  | none => []
  | some (.arr e0 _ e2) =>
    if truthyStr e0 && truthyStr e2 then [e2.getD ""] else []
  | some (.obj message) =>
    if truthyStr message then [message.getD ""] else []

/-- How a `killProcess()` call terminates: normally, or by throwing
(the `TypeError` of reading `.pid` off a `null` handle). -/
inductive KillOutcome
  | normal
  | threw
  deriving Repr, DecidableEq

/-- Observable effects of one `killProcess()` call. -/
structure KillResult where
  state : BuilderState
  outcome : KillOutcome
  signalled : Option (Nat × String)
  logs : List String
  deriving Repr, DecidableEq

/-- `killProcess()`: reads `this.tscProcess.pid` — a `null` handle makes
the call throw before anything happens.  With a live handle,
`treeKill(pid, 'SIGTERM', cb)` signals the process tree and the callback
(reporting `treeKillError`, `none` for success) unconditionally clears
the handle and logs a recognized error shape. -/
def killProcess (st : BuilderState) (treeKillError : Option KillError) :
    KillResult :=
  match st.tscProcess with
  | none =>
    { state := st, outcome := .threw, signalled := none, logs := [] }
  | some p =>
    { state := { st with tscProcess := none }, outcome := .normal,
      signalled := some (p.pid, "SIGTERM"),
      logs := loggedMessages treeKillError }

/-! ## Concrete collaborator instances used in the scenarios -/

/-- Architect instance of the end-to-end scenario: every target resolves
to `{host:"0.0.0.0", port:4200, ssl:false}` with the watch override
applied, description and validation succeed, and the dev server emits
one terminal event when `watch` is off (an unbounded rebuild stream,
truncated here to two events, when it is on). -/
def endToEndArch : Architect :=
  { getBuilderConfiguration := fun spec =>
      { options := { host := "0.0.0.0", port := 4200, ssl := false,
                     publicHost := none, watch := spec.watchOverride } }
    getBuilderDescription := fun _ => .ok "dev-server"
    validateBuilderOptions := fun cfg _ => .ok cfg
    runTarget := fun cfg =>
      if cfg.options.watch then [{ success := true }, { success := true }]
      else [{ success := true }] }

/-- Architect instance whose option validation rejects. -/
def rejectingValidationArch : Architect :=
  { getBuilderConfiguration := fun spec =>
      { options := { host := "localhost", port := 4200, ssl := false,
                     publicHost := none, watch := spec.watchOverride } }
    getBuilderDescription := fun _ => .ok "dev-server"
    validateBuilderOptions := fun _ _ => .error "invalid options"
    runTarget := fun _ => [{ success := true }] }

/-- The rejecting architect with a different `runTarget`: if execution
were ever reached after a validation failure, the two would differ. -/
def rejectingValidationArchAlt : Architect :=
  { rejectingValidationArch with
      runTarget := fun _ => [{ success := false }, { success := false }] }

/-- TestCafe library instance whose run resolves with zero failures. -/
def zeroFailureLib : TestCafeLib :=
  { create := fun _ _ _ => .ok (), runnerRun := fun _ _ => .ok 0 }

/-- TestCafe library instance whose `run()` promise rejects. -/
def rejectingRunLib : TestCafeLib :=
  { create := fun _ _ _ => .ok (), runnerRun := fun _ _ => .error "runner rejected" }

/-- The builder options of the end-to-end scenario. -/
def endToEndOptions : TestCafeBuilderOptions :=
  { browsers := ["chrome"], devServerTarget := some "app:serve:production" }

/-- The end-to-end scenario: target `app:serve:production`, resolved
options `{host:"0.0.0.0", port:4200, ssl:false}`, zero runner failures. -/
def endToEndResult : RunResult :=
  run endToEndArch zeroFailureLib initialState "apps/app-e2e" endToEndOptions

/-- The runner-session arguments of the end-to-end scenario. -/
def endToEndInvocation : RunnerInvocation :=
  { endpointHost := "localhost", port1 := 1337, port2 := 1338,
    src := "apps/app-e2e", browsers := ["chrome"] }

/-! ## General helper lemmas -/

theorem data_append (a b : String) : (a ++ b).data = a.data ++ b.data := by
  cases a; cases b; rfl

theorem asString_data (s : String) : s.data.asString = s := by
  cases s; rfl

theorem str_data_ext {a b : String} (h : a.data = b.data) : a = b := by
  cases a; cases b; exact congrArg String.mk h

theorem toDigitsCore_ne_nil (b fuel n : Nat) (ds : List Char)
    (h : fuel ≠ 0 ∨ ds ≠ []) : Nat.toDigitsCore b fuel n ds ≠ [] := by
  induction fuel generalizing n ds with
  | zero =>
    simpa [Nat.toDigitsCore] using h.resolve_left (by simp)
  | succ f ih =>
    simp only [Nat.toDigitsCore]
    split
    · simp
    · exact ih _ _ (Or.inr (by simp))

theorem nat_repr_ne_nil (n : Nat) : Nat.repr n ≠ "" := by
  intro h
  have h2 : (Nat.toDigits 10 n).asString.data = [] := by
    rw [show (Nat.repr n) = (Nat.toDigits 10 n).asString from rfl] at h
    rw [h]
  have h3 : Nat.toDigits 10 n = [] := by
    simpa [List.asString] using h2
  exact toDigitsCore_ne_nil 10 (n + 1) n [] (Or.inl (by simp)) h3

theorem int_toString_ne_nil (n : Int) : toString n ≠ "" := by
  cases n with
  | ofNat m => exact nat_repr_ne_nil m
  | negSucc m =>
    intro h
    have h2 := congrArg String.data h
    rw [show toString (Int.negSucc m) = "-" ++ Nat.repr (m + 1) from rfl,
      data_append] at h2
    simp at h2

/-! ## Helper lemmas about the embedded operations -/

theorem runDownstream_state_eq (lib : TestCafeLib) (st : BuilderState)
    (root : String) (bs : List String) (evs : List BuildEvent) :
    (runDownstream lib st root bs evs).state = st := by
  unfold runDownstream
  split
  · rfl
  · cases ho : (initTestCafe lib root bs).outcome <;> simp only [ho]

theorem startDevServer_ok_state (arch : Architect) (st st' : BuilderState)
    (t : String) (w : Bool) (evs : List BuildEvent)
    (h : startDevServer arch st t w = Except.ok (st', evs)) :
    st'.tscProcess = st.tscProcess := by
  simp only [startDevServer] at h
  split at h
  · exact absurd h (by simp)
  · split at h
    · exact absurd h (by simp)
    · simp only [Except.ok.injEq, Prod.mk.injEq] at h
      rw [← h.1]

theorem run_state_tscProcess (arch : Architect) (lib : TestCafeLib)
    (st : BuilderState) (root : String) (opts : TestCafeBuilderOptions) :
    (run arch lib st root opts).state.tscProcess = st.tscProcess := by
  unfold run
  split
  · split
    · split
      · rfl
      · rename_i st1 devEvents heq
        rw [runDownstream_state_eq]
        exact startDevServer_ok_state arch st st1 _ false devEvents heq
    · rw [runDownstream_state_eq]
  · rw [runDownstream_state_eq]

theorem killProcess_cleared (st : BuilderState) (err : Option KillError)
    (h : st.tscProcess = none) :
    killProcess st err =
      { state := st, outcome := .threw, signalled := none, logs := [] } := by
  unfold killProcess
  rw [h]

/-! ## The claims -/

/-- C9: the run outcome is success exactly when the runner's
`failedCount` equals `0`: the boundary is exact equality, so `0` maps to
success and `5` as well as any negative count map to failure. -/
theorem c9_success_iff_zero_failed (n : Int) :
    (buildEventOf n).success = decide (n = 0) ∧
    (buildEventOf 0).success = true ∧
    (buildEventOf 5).success = false ∧
    (buildEventOf (-3)).success = false := by
  refine ⟨?_, rfl, rfl, rfl⟩
  simp [buildEventOf, beq_eq_decide]

/-- C1: evidence for the code bug.  In the end-to-end scenario
(`app:serve:production`, resolved options
`{host:"0.0.0.0", port:4200, ssl:false}`, zero failures) the run stores
the computed base URL (`"http://0.0.0.0:4200"`, not even the claimed
`"http://0.0.0.0:4200/"`) on the instance, but the external runner
session is invoked with the fixed endpoint `('localhost', 1337, 1338)`
and configured only with the source path and browsers: no component of
the runner invocation carries the stored base URL. -/
theorem c1_computed_base_url_not_consumed :
    endToEndResult.state.computedTestCafeBaseUrl = some "http://0.0.0.0:4200" ∧
    endToEndResult.state.computedTestCafeBaseUrl ≠ some "http://0.0.0.0:4200/" ∧
    endToEndResult.events = Except.ok [{ success := true }] ∧
    endToEndResult.invocation = some endToEndInvocation ∧
    endToEndInvocation.endpointHost = "localhost" ∧
    endToEndInvocation.port1 = 1337 ∧
    endToEndInvocation.port2 = 1338 ∧
    endToEndInvocation.src = "apps/app-e2e" ∧
    endToEndInvocation.browsers = ["chrome"] ∧
    endToEndInvocation.endpointHost ≠ "http://0.0.0.0:4200/" ∧
    endToEndInvocation.src ≠ "http://0.0.0.0:4200/" ∧
    ¬ ("http://0.0.0.0:4200/" ∈ endToEndInvocation.browsers) ∧
    endToEndInvocation.endpointHost ≠ "http://0.0.0.0:4200" ∧
    endToEndInvocation.src ≠ "http://0.0.0.0:4200" ∧
    ¬ ("http://0.0.0.0:4200" ∈ endToEndInvocation.browsers) := by
  refine ⟨by decide, by decide, rfl, rfl, rfl, rfl, rfl, rfl, rfl,
    by decide, by decide, by decide, by decide, by decide, by decide⟩

/-- C2 counterexample: when the runner's `run()` promise rejects, the
invocation's outcome is produced (an error) with `close()` called zero
times, not exactly once as the claim states. -/
theorem c2_close_skipped_on_rejection :
    (initTestCafe rejectingRunLib "apps/app-e2e" ["chrome"]).closeCount = 0 ∧
    (initTestCafe rejectingRunLib "apps/app-e2e" ["chrome"]).outcome =
      Except.error "runner rejected" :=
  ⟨rfl, rfl⟩

/-- C2 (amended): `close()` is called exactly once when session creation
and the run both resolve, never twice, and zero times (skipped) when
either step rejects. -/
theorem c2_close_once_iff_run_resolves (lib : TestCafeLib)
    (srcPath : String) (browsers : List String) :
    (initTestCafe lib srcPath browsers).closeCount ≤ 1 ∧
    (∀ ev, (initTestCafe lib srcPath browsers).outcome = Except.ok ev →
      (initTestCafe lib srcPath browsers).closeCount = 1) ∧
    (∀ e, (initTestCafe lib srcPath browsers).outcome = Except.error e →
      (initTestCafe lib srcPath browsers).closeCount = 0) := by
  unfold initTestCafe
  rcases hc : lib.create "localhost" 1337 1338 with e | u
  · simp
  · rcases hr : lib.runnerRun srcPath browsers with e | n <;> simp

/-- C2 witness: on the zero-failure path, `close()` is called exactly
once. -/
theorem c2_close_once_witness :
    (initTestCafe zeroFailureLib "apps/app-e2e" ["chrome"]).closeCount = 1 :=
  (c2_close_once_iff_run_resolves zeroFailureLib "apps/app-e2e" ["chrome"]).2.1
    (buildEventOf 0) rfl

/-- C3 counterexample: calling terminate on an already-cleared (null)
handle throws (the `TypeError` of reading `.pid` off `null`), so
terminate does not "never throw for every state", and the second call of
the claimed idempotent pair throws rather than silently returning. -/
theorem c3_terminate_on_cleared_handle_throws :
    (killProcess initialState none).outcome = KillOutcome.threw ∧
    (killProcess initialState none).logs = [] ∧
    (killProcess initialState none).signalled = none :=
  ⟨rfl, rfl, rfl⟩

/-- C3 (amended): with a live handle, terminate sends `SIGTERM` to the
process tree of the handle's pid, clears the handle unconditionally
(even when the kill callback reports an error), and logs a recognized
error (list-like with truthy elements 0 and 2, or an object with a
truthy `message`) exactly once per call; with a cleared (null) handle
the call throws a null dereference and neither signals nor logs. -/
theorem c3_terminate_behaviour (st : BuilderState) (err : Option KillError) :
    (∀ p, st.tscProcess = some p →
      (killProcess st err).outcome = KillOutcome.normal ∧
      (killProcess st err).state.tscProcess = none ∧
      (killProcess st err).signalled = some (p.pid, "SIGTERM") ∧
      (killProcess st err).logs.length ≤ 1 ∧
      (∀ m, err = some (KillError.obj (some m)) → m ≠ "" →
        (killProcess st err).logs = [m]) ∧
      (∀ a b c, err = some (KillError.arr (some a) b (some c)) → a ≠ "" →
        c ≠ "" → (killProcess st err).logs = [c])) ∧
    (st.tscProcess = none →
      (killProcess st err).outcome = KillOutcome.threw ∧
      (killProcess st err).logs = [] ∧
      (killProcess st err).signalled = none ∧
      (killProcess st err).state = st) := by
  constructor
  · intro p hp
    simp only [killProcess, hp]
    refine ⟨trivial, trivial, trivial, ?_, ?_, ?_⟩
    · rcases err with _ | e
      · simp [loggedMessages]
      · rcases e with ⟨e0, e1, e2⟩ | m <;> simp only [loggedMessages] <;>
          split <;> simp
    · rintro m rfl hm
      simp [loggedMessages, truthyStr, hm]
    · rintro a b c rfl ha hc
      simp [loggedMessages, truthyStr, ha, hc]
  · intro hp
    rw [killProcess_cleared st err hp]
    simp

/-- C3 witness: a live handle with pid 42 and an error object with
message `"kill failed"`: terminate returns normally, clears the handle,
signals `SIGTERM` to the tree of pid 42 and logs the message once. -/
theorem c3_terminate_behaviour_witness :
    (killProcess { computedTestCafeBaseUrl := none, tscProcess := some ⟨42⟩ }
      (some (KillError.obj (some "kill failed")))).outcome =
        KillOutcome.normal ∧
    (killProcess { computedTestCafeBaseUrl := none, tscProcess := some ⟨42⟩ }
      (some (KillError.obj (some "kill failed")))).state.tscProcess = none ∧
    (killProcess { computedTestCafeBaseUrl := none, tscProcess := some ⟨42⟩ }
      (some (KillError.obj (some "kill failed")))).signalled =
        some (42, "SIGTERM") ∧
    (killProcess { computedTestCafeBaseUrl := none, tscProcess := some ⟨42⟩ }
      (some (KillError.obj (some "kill failed")))).logs = ["kill failed"] := by
  obtain ⟨h1, h2, h3, -, h5, -⟩ :=
    (c3_terminate_behaviour { computedTestCafeBaseUrl := none, tscProcess := some ⟨42⟩ }
      (some (KillError.obj (some "kill failed")))).1 ⟨42⟩ rfl
  exact ⟨h1, h2, h3, h5 "kill failed" rfl (by decide)⟩

/-- C4: the child-process handle is `null` initially, `run` (and the
`startDevServer`/`initTestCafe` it invokes) never assigns it, so after
any run from the initial state the handle is still `null` and a call to
`killProcess` would dereference the null handle (throw). -/
theorem c4_tsc_process_stays_null (arch : Architect) (lib : TestCafeLib)
    (st : BuilderState) (root : String) (opts : TestCafeBuilderOptions)
    (err : Option KillError) :
    initialState.tscProcess = none ∧
    (run arch lib st root opts).state.tscProcess = st.tscProcess ∧
    (run arch lib initialState root opts).state.tscProcess = none ∧
    (killProcess (run arch lib initialState root opts).state err).outcome =
      KillOutcome.threw ∧
    (killProcess (run arch lib initialState root opts).state err).signalled =
      none := by
  have h : (run arch lib initialState root opts).state.tscProcess = none :=
    run_state_tscProcess arch lib initialState root opts
  have hk := killProcess_cleared (run arch lib initialState root opts).state err h
  exact ⟨rfl, run_state_tscProcess arch lib st root opts, h,
    by rw [hk], by rw [hk]⟩

/-- C5 counterexample: with no `publicHost` and
`{ssl:true, host:"localhost", port:4200}` the synthesized base URL is
`"https://localhost:4200"` — not the claimed canonical
`"https://localhost:4200/"` (the synthesized branch is not round-tripped
through the URL parser, so no trailing slash is added). -/
theorem c5_no_trailing_slash_counterexample :
    computeBaseUrl "app:serve"
      { host := "localhost", port := 4200, ssl := true, publicHost := none,
        watch := false } none ≠ some "https://localhost:4200/" ∧
    computeBaseUrl "app:serve"
      { host := "localhost", port := 4200, ssl := true, publicHost := none,
        watch := false } none = some "https://localhost:4200" := by
  exact ⟨by decide, by decide⟩

/-- C5 (amended): with no `publicHost`, the base URL is synthesized from
`scheme = ssl ? https : http`, `hostname = host` and the port's decimal
string, yielding `scheme://host:port` with no trailing slash; in
particular `{ssl:true, host:"localhost", port:4200}` yields exactly
`"https://localhost:4200"`. -/
theorem c5_synthesized_url (o : DevServerOptions) (old : Option String)
    (t : String) (ht : t ≠ "") (hph : o.publicHost = none)
    (hhost : containsColon o.host = false) :
    computeBaseUrl t o old =
      some ((if o.ssl then "https" else "http") ++ "://" ++ o.host ++ ":" ++
        toString o.port) ∧
    computeBaseUrl "app:serve"
      { host := "localhost", port := 4200, ssl := true, publicHost := none,
        watch := false } none = some "https://localhost:4200" := by
  refine ⟨?_, by decide⟩
  obtain ⟨host, port, ssl, publicHost, watch⟩ := o
  simp only at hph hhost
  subst hph
  unfold computeBaseUrl
  rw [if_neg (by simp [truthyStr]), if_pos ht]
  refine congrArg some (str_data_ext ?_)
  have hport := int_toString_ne_nil port
  cases ssl <;>
    simp only [urlFormat, lastIsColon, slashedProtocol, hhost, hport,
      startsWithSlash] <;>
    simp [data_append, List.append_assoc, hport]

/-- C5 witness: the amended synthesis formula evaluated at
`{ssl:false, host:"0.0.0.0", port:4200}`. -/
theorem c5_synthesized_url_witness :
    computeBaseUrl "app:serve:production"
      { host := "0.0.0.0", port := 4200, ssl := false, publicHost := none,
        watch := false } none = some "http://0.0.0.0:4200" :=
  ((c5_synthesized_url
      { host := "0.0.0.0", port := 4200, ssl := false, publicHost := none,
        watch := false } none "app:serve:production"
      (by decide) rfl (by decide)).1).trans (by decide)

/-- C6: with a non-empty `publicHost`, the URL deriver uses it: kept
verbatim when it already matches the case-insensitive `scheme://` regex
(scheme preserved, not replaced by the `ssl` flag), otherwise prefixed
with `https://`/`http://` according to `ssl`, and the result is
round-tripped through the `url.parse`/`url.format` normalizer before
being stored; `"https://example.com"` yields `"https://example.com/"`
and `{ssl:false, publicHost:"example.com"}` yields
`"http://example.com/"`. -/
theorem c6_public_host_branch (o : DevServerOptions) (old : Option String)
    (t ph : String) (ht : t ≠ "") (hph : o.publicHost = some ph)
    (hne : ph ≠ "") :
    computeBaseUrl t o old =
      some (urlFormat (urlParse (publicHostWithScheme o))) ∧
    publicHostWithScheme o =
      (if schemeRegexTest ph then ph
       else (if o.ssl then "https" else "http") ++ "://" ++ ph) ∧
    computeBaseUrl "app:serve"
      { host := "h", port := 80, ssl := false,
        publicHost := some "https://example.com", watch := false } none =
      some "https://example.com/" ∧
    computeBaseUrl "app:serve"
      { host := "h", port := 80, ssl := false,
        publicHost := some "example.com", watch := false } none =
      some "http://example.com/" := by
  refine ⟨?_, ?_, by decide, by decide⟩
  · unfold computeBaseUrl
    rw [if_pos ⟨ht, by simp [hph, truthyStr, hne]⟩]
  · unfold publicHostWithScheme
    rw [hph]
    rfl

/-- C6 witness: the branch equation applied at
`publicHost = "https://example.com"`, with its normalized value. -/
theorem c6_public_host_branch_witness :
    computeBaseUrl "app:serve"
      { host := "h", port := 80, ssl := false,
        publicHost := some "https://example.com", watch := false } none =
      some (urlFormat (urlParse (publicHostWithScheme
        { host := "h", port := 80, ssl := false,
          publicHost := some "https://example.com", watch := false }))) ∧
    computeBaseUrl "app:serve"
      { host := "h", port := 80, ssl := false,
        publicHost := some "https://example.com", watch := false } none =
      some "https://example.com/" := by
  obtain ⟨h1, -, h3, -⟩ := c6_public_host_branch
    { host := "h", port := 80, ssl := false,
      publicHost := some "https://example.com", watch := false } none
    "app:serve" "https://example.com" (by decide) rfl (by decide)
  exact ⟨h1, h3⟩

theorem runDownstream_events_length (lib : TestCafeLib) (st : BuilderState)
    (root : String) (bs : List String) (evs : List BuildEvent)
    (l : List BuildEvent) (hne : evs ≠ [])
    (h : (runDownstream lib st root bs evs).events = Except.ok l) :
    l.length = 1 := by
  unfold runDownstream at h
  rw [if_neg (by simpa using hne)] at h
  cases ho : (initTestCafe lib root bs).outcome with
  | error e =>
    simp only [ho] at h
    exact absurd h (by simp)
  | ok ev =>
    simp only [ho, Except.ok.injEq] at h
    rw [← h]
    rfl

/-- C7: `run` executes the dev-server target with the watch option
overridden to `false`, regardless of the target's own watch setting
(the override flows through resolution and validation), and — given the
dev-server contract that a non-watch run emits exactly one terminal
event — the event stream returned by `run` emits exactly one terminal
event, never more than one. -/
theorem c7_watch_forced_false_single_event (arch : Architect)
    (lib : TestCafeLib) (st : BuilderState) (root : String)
    (browsers : List String) (t : String)
    (hcfg : ∀ spec, (arch.getBuilderConfiguration spec).options.watch =
      spec.watchOverride)
    (hval : ∀ cfg d cfg2, arch.validateBuilderOptions cfg d = Except.ok cfg2 →
      cfg2.options.watch = cfg.options.watch)
    (hrun : ∀ cfg, cfg.options.watch = false →
      (arch.runTarget cfg).length = 1) :
    (∀ st2 evs, startDevServer arch st t false = Except.ok (st2, evs) →
      evs.length = 1) ∧
    (∀ l, (run arch lib st root
        { browsers := browsers, devServerTarget := some t }).events =
        Except.ok l → l.length = 1) := by
  have part1 : ∀ st2 evs,
      startDevServer arch st t false = Except.ok (st2, evs) →
      evs.length = 1 := by
    intro st2 evs h
    simp only [startDevServer] at h
    rcases hd2 : arch.getBuilderDescription (resolvedConfig arch t false)
      with e | d
    · simp [hd2] at h
    · simp only [hd2] at h
      rcases hv2 : arch.validateBuilderOptions (resolvedConfig arch t false) d
        with e | cfg
      · simp [hv2] at h
      · simp only [hv2, Except.ok.injEq, Prod.mk.injEq] at h
        rw [← h.2]
        apply hrun
        rw [hval _ _ _ hv2]
        simp only [resolvedConfig]
        rw [hcfg]
        rfl
  refine ⟨part1, ?_⟩
  intro l hl
  unfold run at hl
  dsimp only at hl
  split at hl
  · split at hl
    · exact absurd hl (by simp)
    · rename_i st1 devEvents heq
      have hlen := part1 st1 devEvents heq
      refine runDownstream_events_length lib st1 root browsers devEvents l
        ?_ hl
      intro h0
      rw [h0] at hlen
      simp at hlen
  · exact runDownstream_events_length lib st root browsers _ l (by simp) hl

/-- C7 witness: the end-to-end scenario emits exactly the one terminal
event `{success: true}`. -/
theorem c7_watch_forced_false_single_event_witness :
    endToEndResult.events = Except.ok [{ success := true }] ∧
    [({ success := true } : BuildEvent)].length = 1 := by
  constructor
  · rfl
  · exact (c7_watch_forced_false_single_event endToEndArch zeroFailureLib
      initialState "apps/app-e2e" ["chrome"] "app:serve:production"
      (fun _ => rfl)
      (fun cfg d cfg2 h => by cases Except.ok.inj h; rfl)
      (fun cfg hw => by simp [endToEndArch, hw])).2
      [{ success := true }] rfl

/-- C8: option validation precedes target execution: when the pipeline
succeeds, the executed events come from a configuration that passed
validation; when validation fails, the pipeline aborts with that error
and the execution step is never reached (an architect differing only in
its execution function yields the identical aborted outcome). -/
theorem c8_validation_precedes_execution (arch arch2 : Architect)
    (st : BuilderState) (t : String) (w : Bool)
    (hc : arch2.getBuilderConfiguration = arch.getBuilderConfiguration)
    (hd : arch2.getBuilderDescription = arch.getBuilderDescription)
    (hv : arch2.validateBuilderOptions = arch.validateBuilderOptions) :
    (∀ st2 evs, startDevServer arch st t w = Except.ok (st2, evs) →
      ∃ d cfg, arch.getBuilderDescription (resolvedConfig arch t w) =
          Except.ok d ∧
        arch.validateBuilderOptions (resolvedConfig arch t w) d =
          Except.ok cfg ∧
        evs = arch.runTarget cfg) ∧
    (∀ d e, arch.getBuilderDescription (resolvedConfig arch t w) =
        Except.ok d →
      arch.validateBuilderOptions (resolvedConfig arch t w) d =
        Except.error e →
      startDevServer arch st t w = Except.error e ∧
      startDevServer arch2 st t w = Except.error e) := by
  constructor
  · intro st2 evs h
    simp only [startDevServer] at h
    rcases hd2 : arch.getBuilderDescription (resolvedConfig arch t w)
      with e | d
    · simp [hd2] at h
    · simp only [hd2] at h
      rcases hv2 : arch.validateBuilderOptions (resolvedConfig arch t w) d
        with e | cfg
      · simp [hv2] at h
      · simp only [hv2, Except.ok.injEq, Prod.mk.injEq] at h
        exact ⟨d, cfg, rfl, hv2, h.2.symm⟩
  · intro d e hd2 hv2
    have hrc : resolvedConfig arch2 t w = resolvedConfig arch t w := by
      simp only [resolvedConfig, hc]
    constructor
    · simp only [startDevServer, hd2, hv2]
    · simp only [startDevServer, hrc, hd, hv, hd2, hv2]

/-- C8 witness: an architect whose validation rejects aborts with the
validation error, and so does its variant with a different execution
function. -/
theorem c8_validation_precedes_execution_witness :
    startDevServer rejectingValidationArch initialState "app:serve" false =
      Except.error "invalid options" ∧
    startDevServer rejectingValidationArchAlt initialState "app:serve" false =
      Except.error "invalid options" :=
  (c8_validation_precedes_execution rejectingValidationArch
    rejectingValidationArchAlt initialState "app:serve" false
    rfl rfl rfl).2 "dev-server" "invalid options" rfl rfl

theorem splitOn_colon_cons (xs ys : List Char) (hx : ':' ∉ xs) :
    (xs ++ ':' :: ys).splitOn ':' = xs :: ys.splitOn ':' := by
  apply List.splitOnP_first
  · intro x hxx
    intro hbeq
    rw [beq_iff_eq] at hbeq
    exact hx (hbeq ▸ hxx)
  · simp

theorem splitOn_colon_single (xs : List Char) (hx : ':' ∉ xs) :
    xs.splitOn ':' = [xs] := by
  apply List.splitOnP_eq_single
  intro x hxx
  intro hbeq
  rw [beq_iff_eq] at hbeq
  exact hx (hbeq ▸ hxx)

/-- C10: splitting a target spec `"p:t:c"` (segments colon-free) yields
project `p`, target `t`, configuration `c`; splitting `"p:t"` yields
project `p`, target `t`, and configuration undefined. -/
theorem c10_target_spec_split (p t c : String)
    (hp : ':' ∉ p.data) (ht : ':' ∉ t.data) (hc : ':' ∉ c.data) :
    parseTargetString (p ++ ":" ++ t ++ ":" ++ c) =
      { project := some p, target := some t, configuration := some c } ∧
    parseTargetString (p ++ ":" ++ t) =
      { project := some p, target := some t, configuration := none } := by
  have hdata3 : (p ++ ":" ++ t ++ ":" ++ c).data =
      p.data ++ ':' :: (t.data ++ ':' :: c.data) := by
    simp [data_append, show (":" : String).data = [':'] from rfl,
      List.append_assoc]
  have hdata2 : (p ++ ":" ++ t).data = p.data ++ ':' :: t.data := by
    simp [data_append, show (":" : String).data = [':'] from rfl]
  have hsplit3 : splitColon (p ++ ":" ++ t ++ ":" ++ c) = [p, t, c] := by
    unfold splitColon
    rw [hdata3, splitOn_colon_cons _ _ hp, splitOn_colon_cons _ _ ht,
      splitOn_colon_single _ hc]
    simp [asString_data]
  have hsplit2 : splitColon (p ++ ":" ++ t) = [p, t] := by
    unfold splitColon
    rw [hdata2, splitOn_colon_cons _ _ hp, splitOn_colon_single _ ht]
    simp [asString_data]
  constructor
  · unfold parseTargetString
    rw [hsplit3]
    rfl
  · unfold parseTargetString
    rw [hsplit2]
    rfl

/-- C10 witness: `"app:serve:production"` and `"app:serve"`. -/
theorem c10_target_spec_split_witness :
    parseTargetString "app:serve:production" =
      { project := some "app", target := some "serve",
        configuration := some "production" } ∧
    parseTargetString "app:serve" =
      { project := some "app", target := some "serve",
        configuration := none } := by
  have h := c10_target_spec_split "app" "serve" "production"
    (by decide) (by decide) (by decide)
  exact ⟨h.1, h.2⟩

end TestCafe
